import Mathlib

/-!
Verification of the PIMA alarm protocol engine
(`custom_components/pima/pima_protocol.py` and `const.py`).

Bytes are modelled as `List Nat` (each element the value of one byte);
strings as Lean `String`.  Pure functions of the source are translated
directly; the socket-level session and retry loop are modelled by explicit
environments describing the outcome of each external interaction, and the
side effects (TCP open/close, frames sent, sleeps) are recorded as event
traces.
-/

set_option maxRecDepth 100000

namespace Pima

/-- Protocol constants from `const.py`. -/
def FRAME_START : Nat := 0xdb

/-- Frame end sentinel byte from `const.py`. -/
def FRAME_END : Nat := 0xdc

/-- Command flag byte from `const.py`. -/
def COMMAND_FLAG : Nat := 0xff

/-- Retry count from `const.py` (`RETRY_ATTEMPTS = 3`). -/
def RETRY_ATTEMPTS : Nat := 3

/-- One shift step of CRC-16/XMODEM: shift left, conditionally xor the
polynomial 0x1021, truncate to 16 bits.  The invariant `crc < 65536` is
maintained by the `% 65536`. -/
def crcStep (crc : Nat) : Nat :=
  if 32768 ≤ crc then Nat.xor (crc * 2) 0x1021 % 65536
  else crc * 2 % 65536

/-- Process one input byte of CRC-16/XMODEM (MSB-first, init 0, no
reflection): xor the byte into the high 8 bits, then do 8 shift steps. -/
def crcByte (crc b : Nat) : Nat :=
  crcStep (crcStep (crcStep (crcStep (crcStep (crcStep (crcStep (crcStep
    (Nat.xor crc (b % 256 * 256)))))))))

/-- CRC-16/XMODEM of a byte sequence, as computed by
`crcmod.predefined.mkCrcFun('xmodem')` in `PimaProtocol.__init__`. -/
def crc16 (data : List Nat) : Nat :=
  data.foldl crcByte 0

/-- `PimaProtocol._calculate_crc`: the CRC as 2 bytes, big endian
(`crc.to_bytes(2, byteorder="big")`). -/
def calculateCrc (data : List Nat) : List Nat :=
  [crc16 data / 256, crc16 data % 256]

/-- ASCII encoding of a string (`command.encode("ascii")`); faithful for
strings whose characters are all below 128, which is the situation of every
claim (Python raises on other input). -/
def strBytes (s : String) : List Nat :=
  s.data.map Char.toNat

/-- `PimaProtocol._create_command`: frame a command string as
`FRAME_START + COMMAND_FLAG + data + crc + FRAME_END`, the CRC taken over
`COMMAND_FLAG + data`. -/
def createCommand (command : String) : List Nat :=
  FRAME_START :: COMMAND_FLAG :: strBytes command
    ++ calculateCrc (COMMAND_FLAG :: strBytes command) ++ [FRAME_END]

/-- `response.startswith(FRAME_START)` for the 1-byte sentinel: true iff the
first byte equals `b` (false on empty input). -/
def startsWithByte (bs : List Nat) (b : Nat) : Prop :=
  bs.head? = some b

instance (bs : List Nat) (b : Nat) : Decidable (startsWithByte bs b) := by
  unfold startsWithByte; infer_instance

/-- `response.endswith(FRAME_END)` for the 1-byte sentinel: true iff the last
byte equals `b` (false on empty input). -/
def endsWithByte (bs : List Nat) (b : Nat) : Prop :=
  bs.getLast? = some b

instance (bs : List Nat) (b : Nat) : Decidable (endsWithByte bs b) := by
  unfold endsWithByte; infer_instance

/-- The `data_with_crc` slice of `_parse_response`: `response[3:-1]` when
`len(response) > 2 and response[1:2] == COMMAND_FLAG`, else `response[1:-1]`.
Python slices never raise; `drop`/`dropLast` agree with them at every
length. -/
def dataWithCrc (bs : List Nat) : List Nat :=
  if 2 < bs.length ∧ bs[1]? = some COMMAND_FLAG then (bs.drop 3).dropLast
  else (bs.drop 1).dropLast

/-- The `data = data_with_crc[:-2]` slice of `_parse_response`. -/
def parsePayload (bs : List Nat) : List Nat :=
  (dataWithCrc bs).take ((dataWithCrc bs).length - 2)

/-- The `received_crc = data_with_crc[-2:]` slice of `_parse_response`. -/
def parseStoredCrc (bs : List Nat) : List Nat :=
  (dataWithCrc bs).drop ((dataWithCrc bs).length - 2)

/-- `data.decode("ascii", errors="ignore")`: bytes below 128 become
characters, all others are silently dropped. -/
def asciiDecodeIgnore (data : List Nat) : String :=
  ⟨(data.filter (fun b => b < 128)).map Char.ofNat⟩

/-- `PimaProtocol._parse_response`: length check, sentinel check, slice out
`data_with_crc` (command-shaped frames via `response[3:-1]`, response-shaped
via `response[1:-1]`), verify the trailing 2-byte CRC against the CRC
recomputed over the preceding bytes, and decode leniently. -/
def parseResponse (bs : List Nat) : Option String :=
  if bs.length < 6 then none
  else if ¬(startsWithByte bs FRAME_START ∧ endsWithByte bs FRAME_END) then none
  else if (dataWithCrc bs).length < 2 then none
  else if parseStoredCrc bs ≠ calculateCrc (parsePayload bs) then none
  else some (asciiDecodeIgnore (parsePayload bs))

/-- Python substring membership `pat in s`, on character lists: some suffix
of `s` has `pat` as a prefix. -/
def containsSub (pat : List Char) : List Char → Bool
  | [] => pat.isEmpty
  | c :: rest => pat.isPrefixOf (c :: rest) || containsSub pat rest

/-- Python `pat in s` on strings. -/
def strContains (s pat : String) : Bool :=
  containsSub pat.data s.data

/-- Python `response.split("S=")`, specialised to the separator `"S="` used in
`async_get_status`: split at each leftmost occurrence of `S=`. -/
def splitOnSE : List Char → List (List Char)
  | 'S' :: '=' :: rest => [] :: splitOnSE rest
  | c :: rest =>
    match splitOnSE rest with
    | [] => [[c]]
    | p :: ps => (c :: p) :: ps
  | [] => [[]]

/-- The `PIMA_STATE_MAP` table of `const.py` (single-character codes to
domain states). -/
def PIMA_STATE_MAP : List (Char × String) :=
  [('0', "disarmed"), ('1', "armed_away"), ('2', "armed_home"),
   ('3', "armed_night")]

/-- `PIMA_STATE_MAP.get(status_code, "unknown")`. -/
def stateMapGet (c : Char) : String :=
  ((PIMA_STATE_MAP.lookup c).getD "unknown")

/-- The response-interpretation tail of `async_get_status`, as a function of
the retry-controller result.  `Except.error` models a raised exception
(`IndexError` from `response.split("S=")[1][0]`); `Except.ok` models a normal
return.  Note `if not response` treats the empty string like `None`. -/
def statusFromResponse (response : Option String) : Except String (Option String) :=
  match response with
  | none => Except.ok none
  | some s =>
    if s = "" then Except.ok none
    else if strContains s "S=" then
      match (splitOnSE s.data)[1]? with
      | none => Except.error "IndexError"
      | some piece =>
        match piece[0]? with
        | none => Except.error "IndexError"
        | some d => Except.ok (some (stateMapGet d))
    else Except.ok (some "unknown")

/-- The response-interpretation tail of the four action operations
(`async_arm_away` etc.): `response is not None and marker in response`. -/
def actionFromResponse (marker : String) (response : Option String) : Bool :=
  match response with
  | none => false
  | some s => strContains s marker

/-- Connection-level configuration of `PimaProtocol` relevant to the claims:
the alarm code used to build the login frame. -/
structure Config where
  alarmCode : String

/-- Observable side effects of one session attempt.  TCP socket creation and
closure, each frame send (tagged by the call site in `_connect_and_execute`:
login, actual command, disconnect), the UDP wake sequence, and sleeps. -/
inductive Ev where
  | wake : Ev
  | slept : Nat → Ev
  | sockOpen : Ev
  | sockClose : Ev
  | sentLogin : List Nat → Ev
  | sentCmd : List Nat → Ev
  | sentDC : List Nat → Ev
deriving DecidableEq

/-- Environment of one attempt: the outcome of each external interaction.
`loginRecv`/`cmdRecv` are the bytes produced by `sock.recv(1024)` (`none`
models an exception raised by the send/recv pair, e.g. a timeout or reset);
the Booleans model exceptions at the wake, connect and disconnect-send
points.  Python catches every exception in the one `except` block, so only
the raise point matters, not the exception's identity. -/
structure AttemptEnv where
  wakeOk : Bool
  connectOk : Bool
  loginRecv : Option (List Nat)
  cmdRecv : Option (List Nat)
  dcOk : Bool
deriving DecidableEq

/-- Control-flow outcome of one attempt body: the `except` branch ran
(`raised`), the login-failure `continue` ran (`loginFailed`), or the `return
result` statement ran (`returned`). -/
inductive Outcome where
  | raised : Outcome
  | loginFailed : Outcome
  | returned : Option String → Outcome
deriving DecidableEq

/-- Events and outcome of one attempt. -/
structure AttemptRes where
  events : List Ev
  outcome : Outcome
deriving DecidableEq

/-- The login test of `_connect_and_execute`:
`not (not login_result or "R=1" not in login_result)`.  A `None` or empty
decode fails; otherwise the payload must contain `R=1`. -/
def loginOk (r : Option String) : Bool :=
  match r with
  | none => false
  | some s => strContains s "R=1"

/-- One iteration body of the retry loop of `_connect_and_execute` (lines
124-166): wake knocks, 1 s settle sleep, TCP connect, login frame, login
check (`continue` without closing the socket on failure), command frame,
response decode, best-effort `DC=1`, close, return.  Each `Option`/`Bool`
branch of the environment selects the matching raise point, whose `except`
handler closes the socket when one was created. -/
def runAttempt (cfg : Config) (command : String) (env : AttemptEnv) : AttemptRes :=
  if env.wakeOk = false then ⟨[Ev.wake], Outcome.raised⟩
  else
    let opened := [Ev.wake, Ev.slept 1, Ev.sockOpen]
    if env.connectOk = false then ⟨opened ++ [Ev.sockClose], Outcome.raised⟩
    else
      let loginFrame := createCommand ("PW=" ++ cfg.alarmCode)
      match env.loginRecv with
      | none => ⟨opened ++ [Ev.sentLogin loginFrame, Ev.sockClose], Outcome.raised⟩
      | some lb =>
        if loginOk (parseResponse lb) then
          let cmdFrame := createCommand command
          match env.cmdRecv with
          | none =>
            ⟨opened ++ [Ev.sentLogin loginFrame, Ev.sentCmd cmdFrame, Ev.sockClose],
             Outcome.raised⟩
          | some rb =>
            let dcFrame := createCommand "DC=1"
            if env.dcOk then
              ⟨opened ++ [Ev.sentLogin loginFrame, Ev.sentCmd cmdFrame,
                Ev.sentDC dcFrame, Ev.sockClose],
               Outcome.returned (parseResponse rb)⟩
            else
              ⟨opened ++ [Ev.sentLogin loginFrame, Ev.sentCmd cmdFrame, Ev.sockClose],
               Outcome.raised⟩
        else
          ⟨opened ++ [Ev.sentLogin loginFrame], Outcome.loginFailed⟩

/-- The decoded login response of an attempt, when one is reached: `None`
when the wake, connect or login I/O failed, otherwise
`_parse_response(login_response)`. -/
def attemptLoginDecoded (env : AttemptEnv) : Option String :=
  if env.wakeOk && env.connectOk then env.loginRecv.bind parseResponse
  else none

/-- Summary of a run of the retry loop: loop iterations executed, number of
2 s backoff sleeps, flat event trace, and the returned value. -/
structure ExecSummary where
  cycles : Nat
  backoffs : Nat
  events : List Ev
  result : Option String
deriving DecidableEq

/-- Fold one attempt into the summary of the remaining loop iterations.
`lastAttempt` is `attempt == retry_attempts - 1`: the backoff sleep of the
`except` handler runs only before a further attempt, and the login-failure
`continue` skips it entirely. -/
def attemptStep (a : AttemptRes) (lastAttempt : Bool) (rest : ExecSummary) : ExecSummary :=
  match a.outcome with
  | Outcome.returned r => ⟨1, 0, a.events, r⟩
  | Outcome.raised =>
    ⟨rest.cycles + 1, rest.backoffs + (if lastAttempt then 0 else 1),
     a.events ++ (if lastAttempt then [] else [Ev.slept 2]) ++ rest.events,
     rest.result⟩
  | Outcome.loginFailed =>
    ⟨rest.cycles + 1, rest.backoffs, a.events ++ rest.events, rest.result⟩

/-- The retry loop of `_connect_and_execute` from attempt index `i` with the
given number of iterations remaining; falling off the loop yields `None`. -/
def execFrom (cfg : Config) (command : String) (envs : Nat → AttemptEnv) :
    Nat → Nat → ExecSummary
  | _, 0 => ⟨0, 0, [], none⟩
  | i, m + 1 =>
    attemptStep (runAttempt cfg command (envs i)) (m == 0)
      (execFrom cfg command envs (i + 1) m)

/-- `PimaProtocol._connect_and_execute`: the bounded retry loop over
`RETRY_ATTEMPTS` attempts, each driven by its environment. -/
def connectAndExecute (cfg : Config) (command : String)
    (envs : Nat → AttemptEnv) : ExecSummary :=
  execFrom cfg command envs 0 RETRY_ATTEMPTS

/-- `PimaProtocol.async_get_status`: run `SS=1` through the retry loop, then
interpret the result (the `run_in_executor` indirection is identity in this
sequential model). -/
def asyncGetStatus (cfg : Config) (envs : Nat → AttemptEnv) :
    Except String (Option String) :=
  statusFromResponse (connectAndExecute cfg "SS=1" envs).result

/-- `PimaProtocol.async_arm_away`. -/
def asyncArmAway (cfg : Config) (envs : Nat → AttemptEnv) : Bool :=
  actionFromResponse "S=1" (connectAndExecute cfg "AR=1" envs).result

/-- `PimaProtocol.async_arm_home`. -/
def asyncArmHome (cfg : Config) (envs : Nat → AttemptEnv) : Bool :=
  actionFromResponse "S=2" (connectAndExecute cfg "AR=2" envs).result

/-- `PimaProtocol.async_arm_night`. -/
def asyncArmNight (cfg : Config) (envs : Nat → AttemptEnv) : Bool :=
  actionFromResponse "S=3" (connectAndExecute cfg "AR=3" envs).result

/-- `PimaProtocol.async_disarm`. -/
def asyncDisarm (cfg : Config) (envs : Nat → AttemptEnv) : Bool :=
  actionFromResponse "S=0" (connectAndExecute cfg "DA=1" envs).result

/-- Outcomes that make the retry loop proceed to the next attempt: the
`except` branch or the login-failure `continue`. -/
def isAttemptFailure : Outcome → Bool
  | Outcome.returned _ => false
  | _ => true

/-- Did the attempt end in the `except` branch? -/
def isRaisedOutcome : Outcome → Bool
  | Outcome.raised => true
  | _ => false

/-- Did the attempt end at the `return result` statement? -/
def isReturnedOutcome : Outcome → Bool
  | Outcome.returned _ => true
  | _ => false

/-- Event recognisers for counting side effects in a trace. -/
def isOpenEv : Ev → Bool
  | Ev.sockOpen => true
  | _ => false

/-- Recogniser for TCP socket closure events. -/
def isCloseEv : Ev → Bool
  | Ev.sockClose => true
  | _ => false

/-- Recogniser for sends of the actual command frame (line 155 of
`pima_protocol.py`). -/
def isSentCmdEv : Ev → Bool
  | Ev.sentCmd _ => true
  | _ => false

/-- Fixture: a panel-originated ("response") frame around a payload, as the
real panel would produce it: `START | payload | CRC16(payload) | END`. -/
def respFrame (payload : List Nat) : List Nat :=
  FRAME_START :: payload ++ calculateCrc payload ++ [FRAME_END]

/-- Fixture configuration for the closed theorems. -/
def cfgW : Config := ⟨"1234"⟩

/-- Fixture: a decodable login acknowledgement frame (payload `R=1`). -/
def frameR1 : List Nat := respFrame (strBytes "R=1")

/-- Fixture: a decodable login rejection frame (payload `R=0`). -/
def frameR0 : List Nat := respFrame (strBytes "R=0")

/-- Fixture: a decodable status frame whose payload is exactly `S=`. -/
def frameSE : List Nat := respFrame (strBytes "S=")

/-- Fixture: a decodable status frame whose payload is `S=S=1`. -/
def frameSES1 : List Nat := respFrame (strBytes "S=S=1")

/-- Fixture: a decodable acknowledgement frame with payload `S=1`. -/
def frameS1 : List Nat := respFrame (strBytes "S=1")

/-- Fixture: an attempt whose UDP wake sequence raises. -/
def envAllFail : AttemptEnv := ⟨false, true, none, none, true⟩

/-- Fixture: an attempt whose login response decodes to `R=0`. -/
def envLoginFail : AttemptEnv := ⟨true, true, some frameR0, some [], true⟩

/-- Fixture: an attempt whose login response fails to decode (empty recv). -/
def envLoginNone : AttemptEnv := ⟨true, true, some [], some [], true⟩

/-- Fixture: login succeeds but the command response fails to decode. -/
def envDecodeFail : AttemptEnv := ⟨true, true, some frameR1, some [], true⟩

/-- Fixture: a fully successful attempt acknowledging with `S=1`. -/
def envSuccessS1 : AttemptEnv := ⟨true, true, some frameR1, some frameS1, true⟩

/-- Fixture: login succeeds and the command response decodes to `S=`. -/
def envCmdSE : AttemptEnv := ⟨true, true, some frameR1, some frameSE, true⟩

/-- Fixture schedule for C2: first attempt decodes no command response, a
second attempt would succeed with `S=1`. -/
def envsC2 : Nat → AttemptEnv := fun i => if i = 0 then envDecodeFail else envSuccessS1

/-- Fixture schedule for the C2 witness: first attempt raises, second
succeeds. -/
def envsC2w : Nat → AttemptEnv := fun i => if i = 0 then envAllFail else envSuccessS1

/-- Fixture schedule for C3: every attempt logs in and receives the `S=`
status frame. -/
def envsC3 : Nat → AttemptEnv := fun _ => envCmdSE

/-- Fixture schedule for C5: an injected session step that always fails to
produce a result (every attempt logs in, then decodes no command
response). -/
def envsC5 : Nat → AttemptEnv := fun _ => envDecodeFail

/-- Fixture schedule for the C5 witness: every attempt raises at the wake
step. -/
def envsC5w : Nat → AttemptEnv := fun _ => envAllFail

example : splitOnSE "S=S=1".data = [[], [], ['1']] := by decide
example : splitOnSE "S=".data = [[], []] := by decide
example : splitOnSE "aS=b".data = [['a'], ['b']] := by decide
example : statusFromResponse (some "S=0") = Except.ok (some "disarmed") := rfl
example : statusFromResponse (some "S=") = Except.error "IndexError" := rfl
example : statusFromResponse (some "AR=4") = Except.ok (some "unknown") := rfl

theorem attemptStep_returned {a : AttemptRes} {r : Option String}
    (h : a.outcome = Outcome.returned r) (b : Bool) (rest : ExecSummary) :
    attemptStep a b rest = ⟨1, 0, a.events, r⟩ := by
  unfold attemptStep; rw [h]

theorem attemptStep_raised {a : AttemptRes} (h : a.outcome = Outcome.raised)
    (b : Bool) (rest : ExecSummary) :
    attemptStep a b rest =
      ⟨rest.cycles + 1, rest.backoffs + (if b then 0 else 1),
       a.events ++ (if b then [] else [Ev.slept 2]) ++ rest.events,
       rest.result⟩ := by
  unfold attemptStep; rw [h]

theorem attemptStep_loginFailed {a : AttemptRes} (h : a.outcome = Outcome.loginFailed)
    (b : Bool) (rest : ExecSummary) :
    attemptStep a b rest =
      ⟨rest.cycles + 1, rest.backoffs, a.events ++ rest.events, rest.result⟩ := by
  unfold attemptStep; rw [h]

theorem execFrom_succ (cfg : Config) (cmd : String) (envs : Nat → AttemptEnv)
    (i m : Nat) :
    execFrom cfg cmd envs i (m + 1) =
      attemptStep (runAttempt cfg cmd (envs i)) (m == 0)
        (execFrom cfg cmd envs (i + 1) m) := rfl

/-- Spec of the retry loop when the first `k` attempts fail and attempt `k`
reaches `return result`: the loop stops there, having executed `k + 1`
iterations, with one 2 s backoff sleep per raised (not login-failed) attempt
among the first `k`. -/
theorem execFrom_success_spec (cfg : Config) (cmd : String) (envs : Nat → AttemptEnv) :
    ∀ (k i m : Nat) (r : Option String), k < m →
    (∀ j, j < k → isAttemptFailure (runAttempt cfg cmd (envs (i + j))).outcome = true) →
    (runAttempt cfg cmd (envs (i + k))).outcome = Outcome.returned r →
    (execFrom cfg cmd envs i m).result = r ∧
    (execFrom cfg cmd envs i m).cycles = k + 1 ∧
    (execFrom cfg cmd envs i m).backoffs =
      (List.range k).countP
        (fun j => isRaisedOutcome (runAttempt cfg cmd (envs (i + j))).outcome) := by
  intro k
  induction k with
  | zero =>
    intro i m r hm _ hret
    match m, hm with
    | m' + 1, _ =>
      rw [Nat.add_zero] at hret
      rw [execFrom_succ, attemptStep_returned hret]
      exact ⟨rfl, rfl, rfl⟩
  | succ k' ih =>
    intro i m r hmm hfail hret
    match m, hmm with
    | m' + 1, hmm =>
      have hm' : k' < m' := by omega
      have hfail0 : isAttemptFailure (runAttempt cfg cmd (envs i)).outcome = true := by
        have h0 := hfail 0 (by omega); rwa [Nat.add_zero] at h0
      have hfail' : ∀ j, j < k' →
          isAttemptFailure (runAttempt cfg cmd (envs (i + 1 + j))).outcome = true := by
        intro j hj
        have hjj := hfail (j + 1) (by omega)
        rwa [show i + (j + 1) = i + 1 + j by omega] at hjj
      have hret' : (runAttempt cfg cmd (envs (i + 1 + k'))).outcome = Outcome.returned r := by
        rwa [show i + 1 + k' = i + (k' + 1) by omega]
      obtain ⟨ihr, ihc, ihb⟩ := ih (i + 1) m' r hm' hfail' hret'
      have hb : (m' == 0) = false := by
        have hne : m' ≠ 0 := by omega
        simpa using hne
      have hfun : ((fun j => isRaisedOutcome (runAttempt cfg cmd (envs (i + j))).outcome)
            ∘ Nat.succ) =
          (fun j => isRaisedOutcome (runAttempt cfg cmd (envs (i + 1 + j))).outcome) := by
        funext j
        show isRaisedOutcome (runAttempt cfg cmd (envs (i + (j + 1)))).outcome = _
        rw [show i + (j + 1) = i + 1 + j by omega]
      have hcount : (List.range (k' + 1)).countP
            (fun j => isRaisedOutcome (runAttempt cfg cmd (envs (i + j))).outcome) =
          (List.range k').countP
            (fun j => isRaisedOutcome (runAttempt cfg cmd (envs (i + 1 + j))).outcome) +
          (if isRaisedOutcome (runAttempt cfg cmd (envs i)).outcome then 1 else 0) := by
        rw [List.range_succ_eq_map, List.countP_cons, List.countP_map, hfun]
        simp only [Nat.add_zero]
      cases houtcome : (runAttempt cfg cmd (envs i)).outcome with
      | returned r0 => rw [houtcome] at hfail0; simp [isAttemptFailure] at hfail0
      | raised =>
        rw [execFrom_succ, attemptStep_raised houtcome, hb]
        refine ⟨ihr, by simp [ihc], ?_⟩
        show (execFrom cfg cmd envs (i + 1) m').backoffs + 1 = _
        rw [hcount, houtcome, ihb]
        simp [isRaisedOutcome]
      | loginFailed =>
        rw [execFrom_succ, attemptStep_loginFailed houtcome]
        refine ⟨ihr, by simp [ihc], ?_⟩
        show (execFrom cfg cmd envs (i + 1) m').backoffs = _
        rw [hcount, houtcome, ihb]
        simp [isRaisedOutcome]

/-- Spec of the retry loop when every attempt fails without returning: all
`m` iterations run and the loop falls through to `None`. -/
theorem execFrom_allfail_spec (cfg : Config) (cmd : String) (envs : Nat → AttemptEnv) :
    ∀ (m i : Nat),
    (∀ j, j < m → isAttemptFailure (runAttempt cfg cmd (envs (i + j))).outcome = true) →
    (execFrom cfg cmd envs i m).result = none ∧
    (execFrom cfg cmd envs i m).cycles = m := by
  intro m
  induction m with
  | zero => intro i _; exact ⟨rfl, rfl⟩
  | succ m' ih =>
    intro i hfail
    have hfail0 : isAttemptFailure (runAttempt cfg cmd (envs i)).outcome = true := by
      have h0 := hfail 0 (by omega); rwa [Nat.add_zero] at h0
    have hfail' : ∀ j, j < m' →
        isAttemptFailure (runAttempt cfg cmd (envs (i + 1 + j))).outcome = true := by
      intro j hj
      have hjj := hfail (j + 1) (by omega)
      rwa [show i + (j + 1) = i + 1 + j by omega] at hjj
    obtain ⟨ihr, ihc⟩ := ih (i + 1) hfail'
    cases houtcome : (runAttempt cfg cmd (envs i)).outcome with
    | returned r0 => rw [houtcome] at hfail0; simp [isAttemptFailure] at hfail0
    | raised =>
      rw [execFrom_succ, attemptStep_raised houtcome]
      exact ⟨ihr, by simp [ihc]⟩
    | loginFailed =>
      rw [execFrom_succ, attemptStep_loginFailed houtcome]
      exact ⟨ihr, by simp [ihc]⟩

example : crc16 (strBytes "123456789") = 0x31c3 := by decide
example : crc16 [] = 0 := by decide
example : createCommand "SS=1" =
    [0xdb, 0xff, 0x53, 0x53, 0x3d, 0x31, 0xe6, 0x6d, 0xdc] := by decide
example : parseResponse (createCommand "SS=1") = none := by decide
example : parseResponse [0xdb, 0x52, 0x3d, 0x31, 0x65, 0x15, 0xdc] =
    some "R=1" := by decide

theorem actionFromResponse_spec (marker : String) (r : Option String) :
    actionFromResponse marker r = true ↔
      ∃ s, r = some s ∧ strContains s marker = true := by
  cases r with
  | none => simp [actionFromResponse]
  | some s => simp [actionFromResponse]

theorem asciiDecodeIgnore_ascii (data : List Nat) :
    ∀ c ∈ (asciiDecodeIgnore data).data, c.toNat < 128 := by
  intro c hc
  have hmem : c ∈ (data.filter (fun b => b < 128)).map Char.ofNat := hc
  rcases List.mem_map.mp hmem with ⟨b, hb, rfl⟩
  have hb128 : b < 128 := by
    have hdec := (List.mem_filter.mp hb).2
    simpa using hdec
  have hres : ∀ b : Nat, b < 128 → (Char.ofNat b).toNat < 128 := by decide
  exact hres b hb128

/-- C1 (code bug, evaluated at the failing input): decoding the frame that
`_create_command` builds for the command `SS=1` does not return `SS=1`; it
returns `None`, because the command-branch slice `response[3:-1]` drops the
first payload byte, so the recomputed CRC (over `S=1`) cannot match the
stored CRC (over `\xff` + `SS=1`). -/
theorem roundtrip_SS1_fails : parseResponse (createCommand "SS=1") = none := by
  decide

/-- C2 (counterexample): attempt 0 logs in but its command response fails to
decode, so the session yields a `None` result; two attempts remain and the
next one would return `S=1`, yet `_connect_and_execute` returns `None` after
a single loop iteration instead of proceeding to the next attempt. -/
theorem retry_on_none_counterexample :
    (runAttempt cfgW "SS=1" (envsC2 0)).outcome = Outcome.returned none ∧
    (runAttempt cfgW "SS=1" (envsC2 1)).outcome = Outcome.returned (some "S=1") ∧
    (connectAndExecute cfgW "SS=1" envsC2).result = none ∧
    (connectAndExecute cfgW "SS=1" envsC2).cycles = 1 := by
  decide

/-- C2 (amended): the controller returns a result immediately exactly when a
session attempt runs to completion and returns — even when that decoded
result is `None`; attempts that raise or fail login are retried, with the
fixed 2 s backoff slept once after each non-final raised attempt and no
backoff after a login failure. -/
theorem retry_semantics_amended (cfg : Config) (cmd : String)
    (envs : Nat → AttemptEnv) (k : Nat) (r : Option String)
    (hk : k < RETRY_ATTEMPTS)
    (hfail : ∀ j, j < k → isAttemptFailure (runAttempt cfg cmd (envs j)).outcome = true)
    (hret : (runAttempt cfg cmd (envs k)).outcome = Outcome.returned r) :
    (connectAndExecute cfg cmd envs).result = r ∧
    (connectAndExecute cfg cmd envs).cycles = k + 1 ∧
    (connectAndExecute cfg cmd envs).backoffs =
      (List.range k).countP
        (fun j => isRaisedOutcome (runAttempt cfg cmd (envs j)).outcome) := by
  have hfail0 : ∀ j, j < k →
      isAttemptFailure (runAttempt cfg cmd (envs (0 + j))).outcome = true := by
    intro j hj; rw [Nat.zero_add]; exact hfail j hj
  have hret0 : (runAttempt cfg cmd (envs (0 + k))).outcome = Outcome.returned r := by
    rw [Nat.zero_add]; exact hret
  have hmain := execFrom_success_spec cfg cmd envs k 0 RETRY_ATTEMPTS r hk hfail0 hret0
  simpa [connectAndExecute, Nat.zero_add] using hmain

theorem retry_semantics_amended_witness :
    (connectAndExecute cfgW "SS=1" envsC2w).result = some "S=1" ∧
    (connectAndExecute cfgW "SS=1" envsC2w).cycles = 2 ∧
    (connectAndExecute cfgW "SS=1" envsC2w).backoffs =
      (List.range 1).countP
        (fun j => isRaisedOutcome (runAttempt cfgW "SS=1" (envsC2w j)).outcome) :=
  retry_semantics_amended cfgW "SS=1" envsC2w 1 (some "S=1")
    (by decide) (by decide) (by decide)

/-- C3 (code bug, evaluated at the failing input): the payload `S=` is
decodable (a well-formed panel frame produces it), `_connect_and_execute`
can return it, and on it `async_get_status` raises `IndexError` from
`response.split("S=")[1][0]` instead of returning a state or `None`. -/
theorem get_status_raises_on_SE :
    parseResponse frameSE = some "S=" ∧
    (connectAndExecute cfgW "SS=1" envsC3).result = some "S=" ∧
    asyncGetStatus cfgW envsC3 = Except.error "IndexError" :=
  ⟨by decide, by decide, rfl⟩

/-- C4 (code bug, evaluated at the failing input): in an attempt whose login
response decodes without `R=1`, the `continue` statement exits the attempt
without `sock.close()`: the trace shows one TCP socket opened and none
closed. -/
theorem socket_left_open_on_login_failure :
    (runAttempt cfgW "SS=1" envLoginFail).events.countP isOpenEv = 1 ∧
    (runAttempt cfgW "SS=1" envLoginFail).events.countP isCloseEv = 0 ∧
    (runAttempt cfgW "SS=1" envLoginFail).outcome = Outcome.loginFailed := by
  decide

/-- C5 (counterexample): with an injected session step that always fails to
produce a result (every attempt logs in and then decodes no command
response), `_connect_and_execute` performs exactly 1 wake-plus-session cycle,
not 3, before returning `None`. -/
theorem retry_bound_counterexample :
    (runAttempt cfgW "SS=1" (envsC5 0)).outcome = Outcome.returned none ∧
    (connectAndExecute cfgW "SS=1" envsC5).cycles = 1 ∧
    (connectAndExecute cfgW "SS=1" envsC5).result = none := by
  decide

/-- C5 (amended): with `retry_attempts = 3`, if every attempt fails with an
exception or a login failure (the outcomes that make the loop continue),
`_connect_and_execute` performs exactly 3 wake-plus-session cycles and then
returns `None`; an attempt that logs in but decodes no command response
instead returns `None` immediately. -/
theorem retry_bound_amended (cfg : Config) (cmd : String) (envs : Nat → AttemptEnv)
    (hfail : ∀ j, j < RETRY_ATTEMPTS →
      isAttemptFailure (runAttempt cfg cmd (envs j)).outcome = true) :
    (connectAndExecute cfg cmd envs).result = none ∧
    (connectAndExecute cfg cmd envs).cycles = RETRY_ATTEMPTS := by
  have hfail0 : ∀ j, j < RETRY_ATTEMPTS →
      isAttemptFailure (runAttempt cfg cmd (envs (0 + j))).outcome = true := by
    intro j hj; rw [Nat.zero_add]; exact hfail j hj
  have hmain := execFrom_allfail_spec cfg cmd envs RETRY_ATTEMPTS 0 hfail0
  simpa [connectAndExecute] using hmain

theorem retry_bound_amended_witness :
    (connectAndExecute cfgW "SS=1" envsC5w).result = none ∧
    (connectAndExecute cfgW "SS=1" envsC5w).cycles = RETRY_ATTEMPTS :=
  retry_bound_amended cfgW "SS=1" envsC5w (by decide)

/-- C6: in every session attempt, if the decoded login response is `None` or
lacks the substring `R=1`, then no send of the actual command frame occurs in
that attempt's trace and the attempt does not reach `return result`. -/
theorem login_gating (cfg : Config) (cmd : String) (env : AttemptEnv)
    (h : loginOk (attemptLoginDecoded env) = false) :
    (runAttempt cfg cmd env).events.countP isSentCmdEv = 0 ∧
    isReturnedOutcome (runAttempt cfg cmd env).outcome = false := by
  obtain ⟨wakeOk, connectOk, loginRecv, cmdRecv, dcOk⟩ := env
  unfold attemptLoginDecoded at h
  unfold runAttempt
  cases wakeOk with
  | false => exact ⟨rfl, rfl⟩
  | true =>
    cases connectOk with
    | false => exact ⟨rfl, rfl⟩
    | true =>
      cases loginRecv with
      | none => exact ⟨rfl, rfl⟩
      | some lb =>
        have hlogin : loginOk (parseResponse lb) = false := by simpa using h
        simp only [hlogin]
        simp [List.countP_cons, isSentCmdEv, isReturnedOutcome]

theorem login_gating_witness :
    (runAttempt cfgW "SS=1" envLoginNone).events.countP isSentCmdEv = 0 ∧
    isReturnedOutcome (runAttempt cfgW "SS=1" envLoginNone).outcome = false :=
  login_gating cfgW "SS=1" envLoginNone (by decide)

/-- C7: every byte sequence that is shorter than 6 bytes, or does not start
with the `0xdb` sentinel, or does not end with the `0xdc` sentinel, or whose
trailing 2-byte checksum differs from the CRC-16/XMODEM recomputed over the
extracted payload, is rejected by `_parse_response` with `None`. -/
theorem malformed_frame_rejected (bs : List Nat)
    (h : bs.length < 6 ∨ ¬ startsWithByte bs FRAME_START ∨
         ¬ endsWithByte bs FRAME_END ∨
         parseStoredCrc bs ≠ calculateCrc (parsePayload bs)) :
    parseResponse bs = none := by
  unfold parseResponse
  split_ifs with h1 h2 h3 h4 <;> try rfl
  rcases h with h | h | h | h
  · exact absurd h h1
  · exact absurd h2.1 h
  · exact absurd h2.2 h
  · exact absurd h h4

theorem malformed_frame_rejected_witness :
    parseResponse ([] : List Nat) = none :=
  malformed_frame_rejected [] (Or.inl (by decide))

/-- C8: for every environment (hence every retry-controller result), each of
the four action operations returns `true` iff the result is non-`None` and
contains its acknowledgement marker: `S=1` for arm-away, `S=2` for arm-home,
`S=3` for arm-night, `S=0` for disarm; every other outcome yields `false`,
and the mapping is a total Boolean function (no exception path exists). -/
theorem action_result_mapping (cfg : Config) (envs : Nat → AttemptEnv) :
    (asyncArmAway cfg envs = true ↔
      ∃ s, (connectAndExecute cfg "AR=1" envs).result = some s ∧
        strContains s "S=1" = true) ∧
    (asyncArmHome cfg envs = true ↔
      ∃ s, (connectAndExecute cfg "AR=2" envs).result = some s ∧
        strContains s "S=2" = true) ∧
    (asyncArmNight cfg envs = true ↔
      ∃ s, (connectAndExecute cfg "AR=3" envs).result = some s ∧
        strContains s "S=3" = true) ∧
    (asyncDisarm cfg envs = true ↔
      ∃ s, (connectAndExecute cfg "DA=1" envs).result = some s ∧
        strContains s "S=0" = true) :=
  ⟨actionFromResponse_spec "S=1" _, actionFromResponse_spec "S=2" _,
   actionFromResponse_spec "S=3" _, actionFromResponse_spec "S=0" _⟩

/-- C9 (code bug, evaluated at the failing inputs): the digit table behaves
as claimed on `S=0`..`S=3`, an unmapped digit and a result lacking `S=`, and
`None` maps to `None`; but the decodable result `S=S=1` (first `S=`
immediately followed by another) raises `IndexError` instead of returning
`unknown`, and the decodable empty-string result returns `None` instead of
`unknown` (`if not response` conflates `""` with `None`). -/
theorem status_mapping_bug :
    parseResponse frameSES1 = some "S=S=1" ∧
    statusFromResponse (some "S=S=1") = Except.error "IndexError" ∧
    statusFromResponse (some "") = Except.ok none ∧
    statusFromResponse (some "S=0") = Except.ok (some "disarmed") ∧
    statusFromResponse (some "S=1") = Except.ok (some "armed_away") ∧
    statusFromResponse (some "S=2") = Except.ok (some "armed_home") ∧
    statusFromResponse (some "S=3") = Except.ok (some "armed_night") ∧
    statusFromResponse (some "xS=9") = Except.ok (some "unknown") ∧
    statusFromResponse (some "OK") = Except.ok (some "unknown") ∧
    statusFromResponse none = Except.ok none :=
  ⟨by decide, rfl, rfl, rfl, rfl, rfl, rfl, rfl, rfl, rfl⟩

/-- C10: `_parse_response` is a total function of the input bytes: for every
finite byte sequence it returns `None` or a decoded string whose characters
are all ASCII (non-ASCII payload bytes having been dropped by the lenient
decode); no operation it performs can raise. -/
theorem parse_response_total (bs : List Nat) :
    parseResponse bs = none ∨
    ∃ s, parseResponse bs = some s ∧ ∀ c ∈ s.data, c.toNat < 128 := by
  unfold parseResponse
  split_ifs <;> try exact Or.inl rfl
  exact Or.inr ⟨_, rfl, asciiDecodeIgnore_ascii _⟩

end Pima
